import Mathlib

set_option maxRecDepth 8192

/-!
Shallow embedding of the `is-it-vegan` application: the server-side
analysis relay (`POST /analyze` route handler) and the client-side media
acquisition component (`src/src/app/page.tsx`): camera lifecycle
(`startCamera`, `stopCamera`, `capturePhoto`) and file ingestion
(`handleImageUpload`).  Definitions mirror the TypeScript source; theorems
settle the specification claims.
-/

namespace IsItVegan

/-! ## JavaScript value fragment

Enough of the JavaScript value universe to model the `image` field that
`const { image } = await request.json()` destructures out of the request
body, together with JS truthiness. -/

inductive Js where
  | undef : Js
  | null : Js
  | bool (b : Bool) : Js
  | num (n : Int) : Js
  | str (s : String) : Js
  | obj : Js
  | arr : Js
deriving DecidableEq, Repr

/-- JS truthiness of the modelled values (`!image` is its negation).
`num` models non-NaN numbers. -/
def Js.truthy : Js → Bool
  | .undef => false
  | .null => false
  | .bool b => b
  | .num n => n != 0
  | .str s => s != ""
  | .obj => true
  | .arr => true

/-- Whether `v` is a string value. -/
def Js.isStr : Js → Bool
  | .str _ => true
  | _ => false

/-! ## JS string primitives

`String.prototype.split` with a one-character separator and
`String.prototype.startsWith`, modelled structurally over the character
list of the string. -/

/-- Split a character list at every occurrence of `c`.  `[[]]` for the
empty list, matching JS `"".split(c) === [""]`. -/
def splitOnCharList (c : Char) : List Char → List (List Char)
  | [] => [[]]
  | x :: xs =>
      match splitOnCharList c xs with
      | [] => [[]]
      | h :: t => if x = c then [] :: h :: t else (x :: h) :: t

/-- JS `s.split(sep)` for a one-character separator. -/
def jsSplit (sep : Char) (s : String) : List String :=
  (splitOnCharList sep s.toList).map String.mk

/-- JS `s.startsWith(p)`. -/
def jsStartsWith (p s : String) : Bool :=
  List.isPrefixOf p.toList s.toList

/-! ## The analysis relay (`POST /analyze`)

From the route handler in the repository (reproduced in `src/README.md`,
lines 80–143). -/

/-- The constant `SUPPORTED_FORMATS = ['image/png', 'image/jpeg', 'image/gif', 'image/webp']`
(identical in the route handler and in `page.tsx`). -/
def SUPPORTED_FORMATS : List String :=
  ["image/png", "image/jpeg", "image/gif", "image/webp"]

/-- The string `SUPPORTED_FORMATS.join(', ')`. -/
def supportedFormatsJoined : String := String.intercalate ", " SUPPORTED_FORMATS

/-- The check `SUPPORTED_FORMATS.includes(mimeType)`; `includes` of
`undefined` (out-of-range index) is `false`. -/
def mimeSupported : Option String → Bool
  | some m => SUPPORTED_FORMATS.contains m
  | none => false

/-- The expression `image.split(';')[0].split(':')[1]`: the MIME type
declared by a data URI.  Indexing past the end of a JS array yields
`undefined`, modelled as `none`. -/
def extractMime (image : String) : Option String :=
  (jsSplit ':' ((jsSplit ';' image).headD ""))[1]?

/-- The expression `image.split(',')[1]`: the base64 payload of the data
URI.  When the index is out of range JS yields `undefined`, which the
template literal building the image URL renders as the text
`"undefined"`. -/
def extractBase64 (image : String) : String :=
  match (jsSplit ',' image)[1]? with
  | some s => s
  | none => "undefined"

/-- The fixed instruction prompt sent to the external model, verbatim from
the route handler. -/
def visionPrompt : String :=
  "Analyze this product image and tell me if it's vegan. Consider ingredients, certifications, and any visible labels. Respond with a clear 'Yes' or 'No' followed by a brief explanation. If you are not able to read the image content please be clear about it and the only thing you should say it's to take the photo again. The answer should always be in brazilian portuguese"

/-- The single-turn request the relay sends to the external vision-language
model (`openai.chat.completions.create` argument): model name, the text of
the single user message, the inlined image URL of that message, and
`max_tokens`. -/
structure ModelRequest where
  model : String
  promptText : String
  imageUrl : String
  maxTokens : Nat
deriving DecidableEq, Repr

/-- The request the handler builds for `openai.chat.completions.create`:
`model: "gpt-4o"`, one user message carrying the fixed prompt and the
image URL `` data:${mimeType};base64,${base64Image} ``, and
`max_tokens: 300`. -/
def modelRequestFor (mimeType : Option String) (image : String) : ModelRequest :=
  ⟨"gpt-4o", visionPrompt,
    "data:" ++ mimeType.getD "" ++ ";base64," ++ extractBase64 image, 300⟩

/-- Body of an HTTP response produced by the route handler:
`{ result: s }` or `{ error: s }`. -/
inductive ResponseBody where
  | resultBody (s : String) : ResponseBody
  | errorBody (s : String) : ResponseBody
deriving DecidableEq, Repr

/-- An HTTP response: status code plus JSON body. -/
structure HttpResponse where
  status : Nat
  body : ResponseBody
deriving DecidableEq, Repr

/-- The request body as seen by `const { image } = await request.json()`:
the JSON text may fail to parse (`request.json()` rejects), may parse to
`null`/`undefined` (destructuring throws a `TypeError`), or yields an
`image` field value (`Js.undef` when the field is absent). -/
inductive RequestBody where
  | invalidJson : RequestBody
  | jsonNull : RequestBody
  | withImage (v : Js) : RequestBody
deriving DecidableEq, Repr

/-- Everything the `POST` handler produces besides the HTTP response: the
external-model requests it issued (in order) and the lines written with
`console.error`. -/
structure PostEffects where
  invoked : List ModelRequest
  logs : List String
deriving DecidableEq, Repr

/-- The external model call: either the text
`response.choices[0].message.content` or a thrown error (network, quota,
malformed response), identified by its message. -/
def ModelOracle : Type := ModelRequest → Except String String

/-- The `POST` route handler of `/api/analyze`, parametrised by the
external model.  Mirrors the TypeScript control flow:
`try { json; !image check; mime check; openai call; 200 } catch { log; 500 }`.
A truthy non-string `image` throws at `image.split(';')`, which the
surrounding `try` converts into the generic 500. -/
def POST (body : RequestBody) (callModel : ModelOracle) :
    HttpResponse × PostEffects :=
  match body with
  | .invalidJson =>
      (⟨500, .errorBody "Failed to analyze image"⟩,
       ⟨[], ["Error analyzing image: SyntaxError"]⟩)
  | .jsonNull =>
      (⟨500, .errorBody "Failed to analyze image"⟩,
       ⟨[], ["Error analyzing image: TypeError"]⟩)
  | .withImage v =>
      if ¬ v.truthy then
        (⟨400, .errorBody "No image provided"⟩, ⟨[], []⟩)
      else
        match v with
        | .str image =>
            let mimeType := extractMime image
            if mimeSupported mimeType = false then
              (⟨400, .errorBody
                  ("Unsupported image format. Please use one of: " ++
                    supportedFormatsJoined)⟩,
               ⟨[], []⟩)
            else
              let req := modelRequestFor mimeType image
              match callModel req with
              | .ok content => (⟨200, .resultBody content⟩, ⟨[req], []⟩)
              | .error e =>
                  (⟨500, .errorBody "Failed to analyze image"⟩,
                   ⟨[req], ["Error analyzing image: " ++ e]⟩)
        | _ =>
            (⟨500, .errorBody "Failed to analyze image"⟩,
             ⟨[], ["Error analyzing image: TypeError"]⟩)

/-! ## The media acquisition component (`src/src/app/page.tsx`)

The `VeganAnalyzer` component's `useState`/`useRef` cells form the client
state.  Acquired `MediaStream`s are identified by consecutive natural
numbers; `acquired` records every stream ever returned by `getUserMedia`
and `stoppedTracks` those whose tracks were stopped, so that device-handle
accounting is visible in the model.  The `video` element is mounted
exactly while `showCamera` is rendered, so `videoRef.current` is non-null
iff `showCamera` is true. -/

structure ClientState where
  image : Option String
  loading : Bool
  result : Option String
  error : Option String
  showCamera : Bool
  cameraError : Option String
  streamRef : Option Nat
  videoSrc : Option Nat
  nextStreamId : Nat
  acquired : List Nat
  stoppedTracks : List Nat
deriving DecidableEq, Repr

/-- The component's initial state (all `useState(null/false)` cells). -/
def initState : ClientState :=
  { image := none, loading := false, result := none, error := none,
    showCamera := false, cameraError := none, streamRef := none,
    videoSrc := none, nextStreamId := 0, acquired := [], stoppedTracks := [] }

/-- A file from an `<input type="file">`: declared MIME type plus abstract
content. -/
structure JsFile where
  type : String
  content : String
deriving DecidableEq, Repr

/-- Platform capabilities the component calls into: the video frame's
native dimensions, PNG encoding of the drawn frame or of a decoded file
(base64 payloads of `canvas.toDataURL('image/png')`), and image decoding
of an uploaded file (`Image.onload` fires iff `decodeOk`). -/
structure ClientEnv where
  videoW : Nat
  videoH : Nat
  capturePng : Nat → Nat → String
  decodeOk : JsFile → Bool
  decodeW : JsFile → Nat
  decodeH : JsFile → Nat
  filePng : JsFile → String

/-- Observable client-side effects of one operation: off-screen canvas
work at the given dimensions, or network I/O. -/
inductive ClientEffect where
  | canvasWork (w h : Nat) : ClientEffect
  | networkRequest : ClientEffect
deriving DecidableEq, Repr

/-- The function `stopCamera`: stops the referenced stream's tracks and
clears `streamRef`, clears `video.srcObject` when the video element is
mounted, hides the camera UI and clears the camera error.  Returns the
ids of the streams whose tracks were stopped by this call. -/
def stopCamera (s : ClientState) : ClientState × List Nat :=
  let (s1, stopped) :=
    match s.streamRef with
    | some id =>
        ({ s with stoppedTracks := id :: s.stoppedTracks, streamRef := none },
         [id])
    | none => (s, [])
  let s2 := if s.showCamera then { s1 with videoSrc := none } else s1
  ({ s2 with showCamera := false, cameraError := none }, stopped)

/-- The outcome of one `startCamera` invocation, as determined by the
platform: a throw before any stream is acquired (missing media API, or
`getUserMedia` rejecting with the given error name and message), a throw
after acquisition (video element missing), a throw after the stream was
attached to the video element (metadata/play failure), or full success. -/
inductive OpenOutcome where
  | throwBeforeAcquire (name msg : String) : OpenOutcome
  | throwAfterAcquire (name msg : String) : OpenOutcome
  | throwAfterAttach (name msg : String) : OpenOutcome
  | success : OpenOutcome
deriving DecidableEq, Repr

/-- The `catch` block of `startCamera`: classification of the error by
its `name` into a user-facing Portuguese message. -/
def classifyCameraError (name msg : String) : String :=
  "Não foi possível acessar a câmera. " ++
    (if name = "NotAllowedError" then
      "Por favor, certifique-se de que você concedeu permissões para a câmera."
    else if name = "NotFoundError" then
      "Nenhuma câmera encontrada no seu dispositivo."
    else if name = "NotReadableError" then
      "A câmera já está em uso por outro aplicativo."
    else msg)

/-- The function `startCamera`: clears both error cells, requests a
stream, attaches it to the video element and finally publishes it in
`streamRef`.  On any throw the `catch` block records a classified camera
error and hides the camera UI; a stream acquired before a later throw is
neither stopped nor referenced (its id stays in `acquired` only). -/
def startCamera (s : ClientState) (r : OpenOutcome) : ClientState :=
  let s0 := { s with cameraError := none, error := none }
  match r with
  | .throwBeforeAcquire name msg =>
      { s0 with cameraError := some (classifyCameraError name msg),
                showCamera := false }
  | .throwAfterAcquire name msg =>
      { s0 with acquired := s0.nextStreamId :: s0.acquired,
                nextStreamId := s0.nextStreamId + 1,
                cameraError := some (classifyCameraError name msg),
                showCamera := false }
  | .throwAfterAttach name msg =>
      { s0 with acquired := s0.nextStreamId :: s0.acquired,
                nextStreamId := s0.nextStreamId + 1,
                videoSrc := some s0.nextStreamId,
                cameraError := some (classifyCameraError name msg),
                showCamera := false }
  | .success =>
      { s0 with acquired := s0.nextStreamId :: s0.acquired,
                nextStreamId := s0.nextStreamId + 1,
                videoSrc := some s0.nextStreamId,
                streamRef := some s0.nextStreamId }

/-- The function `capturePhoto`: guarded by
`!videoRef.current || !streamRef.current`; creates an off-screen canvas
at the video's native resolution, draws the current frame, exports it as
a PNG data URL, stores it as the current image and closes the camera.
`ctxOk` is the runtime result of `canvas.getContext('2d')`; when it is
null the thrown error is caught and surfaced, leaving everything else
untouched. -/
def capturePhoto (env : ClientEnv) (ctxOk : Bool) (s : ClientState) :
    ClientState × List ClientEffect :=
  if s.showCamera = false ∨ s.streamRef = none then
    ({ s with error := some "Câmera não está pronta" }, [])
  else if ctxOk = false then
    ({ s with error := (some
        "Falha ao capturar foto: Não foi possível obter o contexto do canvas") },
     [.canvasWork env.videoW env.videoH])
  else
    ((stopCamera { s with
        image := some ("data:image/png;base64," ++
          env.capturePng env.videoW env.videoH) }).1,
     [.canvasWork env.videoW env.videoH])

/-- The function `handleImageUpload`: takes `e.target.files?.[0]`;
rejects a file whose declared type is not `image/*`, then one outside
`SUPPORTED_FORMATS`; otherwise reads the file, decodes it, re-encodes it
on an off-screen canvas sized to the image's natural dimensions and
stores the resulting PNG data URL (when the 2d context is available,
modelled by `ctxOk`). -/
def handleImageUpload (env : ClientEnv) (ctxOk : Bool) (s : ClientState)
    (files : List JsFile) : ClientState × List ClientEffect :=
  match files[0]? with
  | none => (s, [])
  | some file =>
      if jsStartsWith "image/" file.type = false then
        ({ s with error := some "Por favor, envie um arquivo de imagem" }, [])
      else if SUPPORTED_FORMATS.contains file.type = false then
        ({ s with error := (some
            ("Formato de imagem não suportado. Por favor, use um dos seguintes: "
              ++ supportedFormatsJoined)) }, [])
      else if env.decodeOk file = false then
        (s, [])
      else
        let w := env.decodeW file
        let h := env.decodeH file
        if ctxOk then
          ({ s with
              image := some ("data:image/png;base64," ++ env.filePng file),
              result := none, error := none },
           [.canvasWork w h])
        else
          (s, [.canvasWork w h])

/-- The unmount cleanup effect: stops the referenced stream's tracks and
clears `streamRef` (and nothing else). -/
def unmountCleanup (s : ClientState) : ClientState × List Nat :=
  match s.streamRef with
  | some id =>
      ({ s with stoppedTracks := id :: s.stoppedTracks, streamRef := none },
       [id])
  | none => (s, [])

/-! ## Camera event semantics

User-visible events driving the camera lifecycle.  `effectOpen` is the
`useEffect` on `showCamera` whose body is
`if (showCamera && !streamRef.current) startCamera()`; the capture and
cancel buttons are rendered only while `showCamera` is true. -/

inductive CamEvent where
  | cameraButton : CamEvent
  | effectOpen (r : OpenOutcome) : CamEvent
  | captureClick (ctxOk : Bool) : CamEvent
  | cancelClick : CamEvent
  | unmount : CamEvent
deriving DecidableEq, Repr

/-- One step of the camera lifecycle. -/
def step (env : ClientEnv) (s : ClientState) : CamEvent → ClientState
  | .cameraButton =>
      if s.showCamera then (stopCamera s).1 else { s with showCamera := true }
  | .effectOpen r =>
      if s.showCamera = true ∧ s.streamRef = none then startCamera s r else s
  | .captureClick ctxOk =>
      if s.showCamera then (capturePhoto env ctxOk s).1 else s
  | .cancelClick =>
      if s.showCamera then (stopCamera s).1 else s
  | .unmount => (unmountCleanup s).1

/-- The state reached from the initial state by a list of events. -/
def run (env : ClientEnv) (evs : List CamEvent) : ClientState :=
  evs.foldl (step env) initState

/-- The single camera-lifecycle invariant the component maintains: a
stream reference exists only while the camera UI is shown. -/
def CamInv (s : ClientState) : Prop :=
  s.streamRef ≠ none → s.showCamera = true

/-- A concrete external-model oracle used to instantiate theorems. -/
def testOracle : ModelOracle := fun _ => .ok "Sim, é vegano."

/-- A concrete external-model oracle that throws, used to instantiate
theorems about the failure path. -/
def failingOracle : ModelOracle := fun _ => .error "ECONNRESET"

/-- A concrete platform environment used to instantiate theorems. -/
def testEnv : ClientEnv :=
  { videoW := 640, videoH := 480,
    capturePng := fun _ _ => "CAPTUREDPIXELS",
    decodeOk := fun _ => true,
    decodeW := fun _ => 100, decodeH := fun _ => 100,
    filePng := fun _ => "REENCODEDPIXELS" }

/-- A concrete uploaded file of a supported type. -/
def jpegFile : JsFile := ⟨"image/jpeg", "JPEGBYTES"⟩

/-! ## Theorems -/

/-- The enumeration in the unsupported-format message is exactly the four
supported MIME types. -/
theorem unsupportedMessage_eq :
    "Unsupported image format. Please use one of: " ++ supportedFormatsJoined =
      "Unsupported image format. Please use one of: image/png, image/jpeg, image/gif, image/webp" := by
  decide

/-- A truthy string is a nonempty string. -/
theorem truthy_str (s : String) (h : s ≠ "") : Js.truthy (.str s) = true := by
  simp [Js.truthy, h]

/-- C1: a request to `POST /analyze` whose `image` field is absent
(`undefined`) or the empty string fails the payload-present check:
HTTP 400 with body `{ error: "No image provided" }`, no external-model
request issued, independently of the external model. -/
theorem analyze_missing_image (callModel : ModelOracle) (v : Js)
    (h : v = Js.undef ∨ v = Js.str "") :
    POST (.withImage v) callModel =
      (⟨400, .errorBody "No image provided"⟩, ⟨[], []⟩) := by
  rcases h with rfl | rfl <;> rfl

/-- Witness for `analyze_missing_image` at the absent image field. -/
theorem analyze_missing_image_witness :
    POST (.withImage .undef) testOracle =
      (⟨400, .errorBody "No image provided"⟩, ⟨[], []⟩) :=
  analyze_missing_image testOracle .undef (Or.inl rfl)

/-- C2: a present image whose declared MIME type is not among the four
supported ones fails with HTTP 400 and the message enumerating exactly
those four types, with no external-model request; the payload-present
check precedes the MIME-type check (the empty payload, whose MIME type is
also undeclared, still reports "No image provided"); and the concrete
request `{ image: "data:image/bmp;base64,AAAA" }` yields this 400. -/
theorem analyze_unsupported_format (callModel : ModelOracle) (s : String)
    (hne : s ≠ "")
    (hm : ∀ m, extractMime s = some m → m ∉ SUPPORTED_FORMATS) :
    POST (.withImage (.str s)) callModel =
      (⟨400, .errorBody
          "Unsupported image format. Please use one of: image/png, image/jpeg, image/gif, image/webp"⟩,
       ⟨[], []⟩) ∧
    (POST (.withImage (.str "")) callModel).1 =
      ⟨400, .errorBody "No image provided"⟩ ∧
    POST (.withImage (.str "data:image/bmp;base64,AAAA")) callModel =
      (⟨400, .errorBody
          "Unsupported image format. Please use one of: image/png, image/jpeg, image/gif, image/webp"⟩,
       ⟨[], []⟩) := by
  have hms : mimeSupported (extractMime s) = false := by
    cases hsplit : extractMime s with
    | none => rfl
    | some m =>
        have hmem := hm m hsplit
        simp [mimeSupported, hmem]
  have hbmp : mimeSupported (extractMime "data:image/bmp;base64,AAAA") = false := by
    decide
  refine ⟨?_, rfl, ?_⟩
  · simp [POST, truthy_str s hne, hms, ← unsupportedMessage_eq]
  · simp [POST, Js.truthy, hbmp, ← unsupportedMessage_eq]

/-- Witness for `analyze_unsupported_format` at the bmp data URI. -/
theorem analyze_unsupported_format_witness :
    POST (.withImage (.str "data:image/bmp;base64,AAAA")) testOracle =
      (⟨400, .errorBody
          "Unsupported image format. Please use one of: image/png, image/jpeg, image/gif, image/webp"⟩,
       ⟨[], []⟩) :=
  (analyze_unsupported_format testOracle "data:image/bmp;base64,AAAA"
    (by decide)
    (fun m hmm => by
      have hx : extractMime "data:image/bmp;base64,AAAA" = some "image/bmp" := by
        decide
      rw [hx] at hmm
      injection hmm with h
      subst h
      decide)).1

/-- C3: once both precondition checks pass, the relay issues exactly one
single-turn request to the external model, carrying the fixed instruction
prompt (which mentions veganism, visible ingredients/certifications/labels,
an explicit yes/no with brief explanation, retaking an unreadable photo,
and Brazilian Portuguese), the inlined image as declared MIME type plus
base64 payload, and `max_tokens = 300`; when the model returns text, it is
returned unmodified as `{ result: <text> }` with HTTP 200. -/
theorem analyze_relay_success (callModel : ModelOracle) (s m : String)
    (hm : extractMime s = some m) (hsup : m ∈ SUPPORTED_FORMATS) :
    (POST (.withImage (.str s)) callModel).2.invoked =
      [modelRequestFor (some m) s] ∧
    (modelRequestFor (some m) s).model = "gpt-4o" ∧
    (modelRequestFor (some m) s).promptText = visionPrompt ∧
    (modelRequestFor (some m) s).imageUrl =
      "data:" ++ m ++ ";base64," ++ extractBase64 s ∧
    (modelRequestFor (some m) s).maxTokens = 300 ∧
    (∀ c, callModel (modelRequestFor (some m) s) = Except.ok c →
        POST (.withImage (.str s)) callModel =
          (⟨200, .resultBody c⟩, ⟨[modelRequestFor (some m) s], []⟩)) ∧
    "vegan".toList <:+: visionPrompt.toList ∧
    "ingredients, certifications, and any visible labels".toList <:+:
      visionPrompt.toList ∧
    "'Yes' or 'No' followed by a brief explanation".toList <:+:
      visionPrompt.toList ∧
    "take the photo again".toList <:+: visionPrompt.toList ∧
    "brazilian portuguese".toList <:+: visionPrompt.toList := by
  have hne : s ≠ "" := by
    intro h
    subst h
    rw [show extractMime "" = none by decide] at hm
    cases hm
  have hms : mimeSupported (extractMime s) = true := by
    rw [hm]
    simp [mimeSupported, hsup]
  refine ⟨?_, rfl, rfl, rfl, rfl, ?_, by decide, by decide, by decide,
    by decide, by decide⟩
  · cases hc : callModel (modelRequestFor (some m) s) with
    | ok c => simp [POST, truthy_str s hne, hms, hm, hc, mimeSupported, hsup]
    | error e => simp [POST, truthy_str s hne, hms, hm, hc, mimeSupported, hsup]
  · intro c hc
    simp [POST, truthy_str s hne, hms, hm, hc, mimeSupported, hsup]

/-- Witness for `analyze_relay_success` at a png data URI and an oracle
answering with fixed text. -/
theorem analyze_relay_success_witness :
    (POST (.withImage (.str "data:image/png;base64,AAAA")) testOracle).2.invoked =
      [modelRequestFor (some "image/png") "data:image/png;base64,AAAA"] ∧
    POST (.withImage (.str "data:image/png;base64,AAAA")) testOracle =
      (⟨200, .resultBody "Sim, é vegano."⟩,
       ⟨[modelRequestFor (some "image/png") "data:image/png;base64,AAAA"], []⟩) :=
  ⟨(analyze_relay_success testOracle "data:image/png;base64,AAAA" "image/png"
      (by decide) (by decide)).1,
   (analyze_relay_success testOracle "data:image/png;base64,AAAA" "image/png"
      (by decide) (by decide)).2.2.2.2.2.1 "Sim, é vegano." rfl⟩

/-- C4: when the external call throws, the handler catches the error,
logs it, and answers HTTP 500 with the fixed body
`{ error: "Failed to analyze image" }`; the response is this constant and
therefore never carries the underlying cause. -/
theorem analyze_failure_mapped (callModel : ModelOracle) (s m e : String)
    (hm : extractMime s = some m) (hsup : m ∈ SUPPORTED_FORMATS)
    (herr : callModel (modelRequestFor (some m) s) = Except.error e) :
    POST (.withImage (.str s)) callModel =
      (⟨500, .errorBody "Failed to analyze image"⟩,
       ⟨[modelRequestFor (some m) s], ["Error analyzing image: " ++ e]⟩) := by
  have hne : s ≠ "" := by
    intro h
    subst h
    rw [show extractMime "" = none by decide] at hm
    cases hm
  have hms : mimeSupported (extractMime s) = true := by
    rw [hm]
    simp [mimeSupported, hsup]
  simp [POST, truthy_str s hne, hms, hm, herr, mimeSupported, hsup]

/-- Witness for `analyze_failure_mapped` at a png data URI and an oracle
that throws a network error. -/
theorem analyze_failure_mapped_witness :
    POST (.withImage (.str "data:image/png;base64,AAAA")) failingOracle =
      (⟨500, .errorBody "Failed to analyze image"⟩,
       ⟨[modelRequestFor (some "image/png") "data:image/png;base64,AAAA"],
        ["Error analyzing image: " ++ "ECONNRESET"]⟩) :=
  analyze_failure_mapped failingOracle "data:image/png;base64,AAAA" "image/png"
    "ECONNRESET" (by decide) (by decide) rfl

/-- C10: a request body that is not valid JSON, or whose `image` field is
a truthy non-string value, is answered with the generic HTTP 500
`{ error: "Failed to analyze image" }` while the external model is never
invoked: a 500 does not imply a downstream call happened. -/
theorem analyze_500_without_model_call (callModel : ModelOracle) (v : Js)
    (hv : v.truthy = true) (hs : v.isStr = false) :
    POST .invalidJson callModel =
      (⟨500, .errorBody "Failed to analyze image"⟩,
       ⟨[], ["Error analyzing image: SyntaxError"]⟩) ∧
    (POST (.withImage v) callModel).1 =
      ⟨500, .errorBody "Failed to analyze image"⟩ ∧
    (POST (.withImage v) callModel).2.invoked = [] := by
  refine ⟨rfl, ?_, ?_⟩ <;> cases v <;> simp_all [POST, Js.truthy, Js.isStr]

/-- Witness for `analyze_500_without_model_call` at the number `5`. -/
theorem analyze_500_without_model_call_witness :
    POST .invalidJson testOracle =
      (⟨500, .errorBody "Failed to analyze image"⟩,
       ⟨[], ["Error analyzing image: SyntaxError"]⟩) ∧
    (POST (.withImage (.num 5)) testOracle).1 =
      ⟨500, .errorBody "Failed to analyze image"⟩ ∧
    (POST (.withImage (.num 5)) testOracle).2.invoked = [] :=
  analyze_500_without_model_call testOracle (.num 5) (by decide) (by decide)

/-! ### Lemmas about the split primitive and data URLs -/

/-- Splitting never yields the empty list of chunks. -/
theorem splitOnCharList_ne_nil (c : Char) (l : List Char) :
    splitOnCharList c l ≠ [] := by
  cases l with
  | nil => simp [splitOnCharList]
  | cons x xs =>
      rcases h : splitOnCharList c xs with _ | ⟨hd, tl⟩
      · rw [splitOnCharList, h]
        simp
      · rw [splitOnCharList, h]
        by_cases hx : x = c <;> simp [hx]

/-- Splitting a list whose separator-free prefix is `l1` peels off `l1` as
the first chunk. -/
theorem splitOnCharList_append (c : Char) (l1 l2 : List Char) (h : c ∉ l1) :
    splitOnCharList c (l1 ++ c :: l2) = l1 :: splitOnCharList c l2 := by
  induction l1 with
  | nil =>
      rw [List.nil_append, splitOnCharList]
      rcases hs : splitOnCharList c l2 with _ | ⟨hd, tl⟩
      · exact absurd hs (splitOnCharList_ne_nil c l2)
      · simp
  | cons x xs ih =>
      have hx : ¬ x = c := fun hxc => h (by rw [hxc]; exact List.mem_cons_self c xs)
      have h2 : c ∉ xs := fun hm => h (List.mem_cons_of_mem x hm)
      rw [List.cons_append, splitOnCharList, ih h2]
      simp [hx]

/-- A data URL produced by `canvas.toDataURL('image/png')` declares MIME
type `image/png`, whatever its base64 payload is. -/
theorem extractMime_pngDataURL (p : String) :
    extractMime ("data:image/png;base64," ++ p) = some "image/png" := by
  have hlist : ("data:image/png;base64," ++ p).toList =
      "data:image/png".toList ++ ';' :: ("base64,".toList ++ p.toList) := by
    show ("data:image/png;base64," ++ p).data = _
    rw [String.data_append]
    rw [show "data:image/png;base64,".data =
        "data:image/png".data ++ ';' :: "base64,".data by decide]
    simp [String.toList]
  unfold extractMime jsSplit
  rw [hlist, splitOnCharList_append _ _ _ (by decide)]
  simp only [List.map_cons, List.headD_cons]
  show (jsSplit ':' "data:image/png")[1]? = some "image/png"
  decide

/-! ### Client-side theorems -/

/-- C5: an uploaded file whose declared type is not `image/*` is rejected
with the invalid-file-type message, and one of a non-supported image type
with the message naming the four allowed types; both rejections produce no
canvas work and, like every path of `handleImageUpload`, no network
I/O.  The declared-type check runs first: its rejection applies whenever
the type is not `image/*`, even though such a type also fails the
supported-format check. -/
theorem upload_rejection (env : ClientEnv) (ctxOk : Bool) (s : ClientState)
    (file : JsFile) :
    (jsStartsWith "image/" file.type = false →
      handleImageUpload env ctxOk s [file] =
        ({ s with error := some "Por favor, envie um arquivo de imagem" }, [])) ∧
    (jsStartsWith "image/" file.type = true →
      file.type ∉ SUPPORTED_FORMATS →
      handleImageUpload env ctxOk s [file] =
        ({ s with error := (some
            ("Formato de imagem não suportado. Por favor, use um dos seguintes: "
              ++ supportedFormatsJoined)) }, [])) ∧
    (∀ files, ClientEffect.networkRequest ∉
      (handleImageUpload env ctxOk s files).2) := by
  refine ⟨?_, ?_, ?_⟩
  · intro h
    simp [handleImageUpload, h]
  · intro h1 h2
    have hc : SUPPORTED_FORMATS.contains file.type = false := by
      simpa using h2
    simp [handleImageUpload, h1, hc, h2]
  · intro files
    cases h0 : files[0]? with
    | none => simp [handleImageUpload, h0]
    | some f =>
        simp only [handleImageUpload, h0]
        split_ifs <;> simp

/-- Witness for `upload_rejection`: a text file renamed to png, and a bmp
image. -/
theorem upload_rejection_witness :
    handleImageUpload testEnv true initState [⟨"text/plain", "TXT"⟩] =
      ({ initState with error := some "Por favor, envie um arquivo de imagem" },
       []) ∧
    handleImageUpload testEnv true initState [⟨"image/bmp", "BMP"⟩] =
      ({ initState with error := (some
          ("Formato de imagem não suportado. Por favor, use um dos seguintes: "
            ++ supportedFormatsJoined)) }, []) :=
  ⟨(upload_rejection testEnv true initState ⟨"text/plain", "TXT"⟩).1 (by decide),
   (upload_rejection testEnv true initState ⟨"image/bmp", "BMP"⟩).2.1
      (by decide) (by decide)⟩

/-- C6: an uploaded file of a supported type that the platform decodes is
re-encoded through one off-screen canvas sized to the image's natural
dimensions and stored as a PNG data URL — whose declared MIME type is
`image/png` — whatever the original format was. -/
theorem upload_normalizes_to_png (env : ClientEnv) (s : ClientState)
    (file : JsFile) (hsup : file.type ∈ SUPPORTED_FORMATS)
    (hdec : env.decodeOk file = true) :
    handleImageUpload env true s [file] =
      ({ s with
          image := some ("data:image/png;base64," ++ env.filePng file),
          result := none, error := none },
       [.canvasWork (env.decodeW file) (env.decodeH file)]) ∧
    extractMime ("data:image/png;base64," ++ env.filePng file) =
      some "image/png" := by
  have himg : jsStartsWith "image/" file.type = true := by
    simp only [SUPPORTED_FORMATS, List.mem_cons, List.not_mem_nil, or_false] at hsup
    rcases hsup with h | h | h | h <;> rw [h] <;> decide
  have hc : SUPPORTED_FORMATS.contains file.type = true := by
    simpa using hsup
  refine ⟨?_, extractMime_pngDataURL _⟩
  simp [handleImageUpload, himg, hc, hdec, hsup]

/-- Witness for `upload_normalizes_to_png` at a jpeg file. -/
theorem upload_normalizes_to_png_witness :
    handleImageUpload testEnv true initState [jpegFile] =
      ({ initState with
          image := some ("data:image/png;base64," ++ testEnv.filePng jpegFile),
          result := none, error := none },
       [.canvasWork (testEnv.decodeW jpegFile) (testEnv.decodeH jpegFile)]) ∧
    extractMime ("data:image/png;base64," ++ testEnv.filePng jpegFile) =
      some "image/png" :=
  upload_normalizes_to_png testEnv initState jpegFile (by decide) rfl

/-- C7 counterexample: after a failed camera open the component holds no
stream (`streamRef = none`, no session active) but still shows a camera
error; invoking `stopCamera` there changes the component state — it clears
the error message — so the operation is not unconditionally a strict no-op
when no session is active. -/
theorem stopCamera_counterexample :
    (run testEnv [.cameraButton,
        .effectOpen (.throwBeforeAcquire "NotAllowedError" "denied")]).streamRef
      = none ∧
    (stopCamera (run testEnv [.cameraButton,
        .effectOpen (.throwBeforeAcquire "NotAllowedError" "denied")])).1 ≠
      run testEnv [.cameraButton,
        .effectOpen (.throwBeforeAcquire "NotAllowedError" "denied")] := by
  decide

/-- C7 amended: invoking `stopCamera` with no active session stops no
device tracks and throws no error (the operation is total); it always
resets the camera-UI flag and camera-error state, so it is idempotent —
a second invocation changes nothing and stops nothing — and it is a strict
no-op exactly on states that are already fully idle (camera hidden and no
camera error shown). -/
theorem stopCamera_idempotent (s : ClientState) (h : s.streamRef = none) :
    (stopCamera s).2 = [] ∧
    (stopCamera (stopCamera s).1).1 = (stopCamera s).1 ∧
    (stopCamera (stopCamera s).1).2 = [] ∧
    (s.showCamera = false → s.cameraError = none → (stopCamera s).1 = s) := by
  rcases s with ⟨img, ld, res, err, sc, ce, sr, vs, nid, acq, st⟩
  simp only at h
  subst h
  refine ⟨rfl, ?_, ?_, ?_⟩
  · cases sc <;> rfl
  · cases sc <;> rfl
  · intro h1 h2
    simp only at h1 h2
    subst h1
    subst h2
    rfl

/-- Witness for `stopCamera_idempotent` at the initial state. -/
theorem stopCamera_idempotent_witness :
    (stopCamera initState).2 = [] ∧
    (stopCamera (stopCamera initState).1).1 = (stopCamera initState).1 ∧
    (stopCamera (stopCamera initState).1).2 = [] ∧
    (initState.showCamera = false → initState.cameraError = none →
      (stopCamera initState).1 = initState) :=
  stopCamera_idempotent initState rfl

/-- C9: `capturePhoto` requires an active session: with the camera hidden
or no stream referenced it only records the not-ready error; with an
active session but no canvas context it only records the capture-failure
error, leaving the image and the session untouched; on success it draws
the frame at native resolution, stores it as a PNG data URL, and closes
the camera (stream released, UI hidden). -/
theorem capturePhoto_contract (env : ClientEnv) (s : ClientState) :
    ((s.showCamera = false ∨ s.streamRef = none) → ∀ ctx,
      capturePhoto env ctx s =
        ({ s with error := some "Câmera não está pronta" }, [])) ∧
    (s.showCamera = true → s.streamRef ≠ none →
      capturePhoto env false s =
        ({ s with error := (some
            "Falha ao capturar foto: Não foi possível obter o contexto do canvas") },
         [.canvasWork env.videoW env.videoH])) ∧
    (s.showCamera = true → s.streamRef ≠ none →
      capturePhoto env true s =
        ((stopCamera { s with image := (some ("data:image/png;base64," ++
            env.capturePng env.videoW env.videoH)) }).1,
         [.canvasWork env.videoW env.videoH]) ∧
      (capturePhoto env true s).1.image =
        some ("data:image/png;base64," ++ env.capturePng env.videoW env.videoH) ∧
      (capturePhoto env true s).1.streamRef = none ∧
      (capturePhoto env true s).1.showCamera = false) := by
  refine ⟨?_, ?_, ?_⟩
  · intro h ctx
    unfold capturePhoto
    rw [if_pos h]
  · intro h1 h2
    unfold capturePhoto
    rw [if_neg (by simp [h1, h2]), if_pos rfl]
  · intro h1 h2
    have hgoal : capturePhoto env true s =
        ((stopCamera { s with image := (some ("data:image/png;base64," ++
            env.capturePng env.videoW env.videoH)) }).1,
         [.canvasWork env.videoW env.videoH]) := by
      unfold capturePhoto
      rw [if_neg (by simp [h1, h2]), if_neg (by simp)]
    refine ⟨hgoal, ?_, ?_, ?_⟩ <;>
      rcases s with ⟨img, ld, res, err, sc, ce, sr, vs, nid, acq, st⟩ <;>
      simp only at h1 h2 <;>
      subst h1 <;>
      rcases sr with _ | id
    · exact absurd rfl h2
    · rw [hgoal]
      rfl
    · exact absurd rfl h2
    · rw [hgoal]
      rfl
    · exact absurd rfl h2
    · rw [hgoal]
      rfl

/-- Witness for `capturePhoto_contract`: an active-session state reached
by opening the camera successfully. -/
theorem capturePhoto_contract_witness :
    capturePhoto testEnv false (run testEnv [.cameraButton, .effectOpen .success]) =
      ({ run testEnv [.cameraButton, .effectOpen .success] with error := (some
          "Falha ao capturar foto: Não foi possível obter o contexto do canvas") },
       [.canvasWork testEnv.videoW testEnv.videoH]) ∧
    (capturePhoto testEnv true (run testEnv [.cameraButton, .effectOpen .success])).1.streamRef
      = none :=
  ⟨(capturePhoto_contract testEnv
      (run testEnv [.cameraButton, .effectOpen .success])).2.1 (by decide) (by decide),
   ((capturePhoto_contract testEnv
      (run testEnv [.cameraButton, .effectOpen .success])).2.2 (by decide)
        (by decide)).2.2.1⟩

/-! ### Camera resource accounting -/

/-- Stopping the camera always leaves the stream reference empty. -/
theorem stopCamera_streamRef (s : ClientState) :
    ((stopCamera s).1).streamRef = none := by
  rcases s with ⟨img, ld, res, err, sc, ce, sr, vs, nid, acq, st⟩
  cases sr <;> cases sc <;> rfl

/-- Stopping the camera acquires no stream. -/
theorem stopCamera_nextStreamId (s : ClientState) :
    ((stopCamera s).1).nextStreamId = s.nextStreamId := by
  rcases s with ⟨img, ld, res, err, sc, ce, sr, vs, nid, acq, st⟩
  cases sr <;> cases sc <;> rfl

/-- Unmount cleanup always leaves the stream reference empty. -/
theorem unmountCleanup_streamRef (s : ClientState) :
    ((unmountCleanup s).1).streamRef = none := by
  rcases s with ⟨img, ld, res, err, sc, ce, sr, vs, nid, acq, st⟩
  cases sr <;> rfl

/-- Unmount cleanup acquires no stream. -/
theorem unmountCleanup_nextStreamId (s : ClientState) :
    ((unmountCleanup s).1).nextStreamId = s.nextStreamId := by
  rcases s with ⟨img, ld, res, err, sc, ce, sr, vs, nid, acq, st⟩
  cases sr <;> rfl

/-- Capturing a photo acquires no stream. -/
theorem capturePhoto_nextStreamId (env : ClientEnv) (ctx : Bool)
    (s : ClientState) :
    ((capturePhoto env ctx s).1).nextStreamId = s.nextStreamId := by
  unfold capturePhoto
  split_ifs
  · rfl
  · rfl
  · rw [stopCamera_nextStreamId]

/-- The camera invariant holds initially. -/
theorem camInv_init : CamInv initState := by
  intro h
  exact absurd rfl h

/-- Every event preserves the camera invariant. -/
theorem camInv_step (env : ClientEnv) (s : ClientState) (ev : CamEvent)
    (h : CamInv s) : CamInv (step env s ev) := by
  cases ev with
  | cameraButton =>
      by_cases hc : s.showCamera
      · intro hne
        rw [step, if_pos hc, stopCamera_streamRef] at hne
        exact absurd rfl hne
      · intro _
        rw [step, if_neg hc]
  | effectOpen r =>
      by_cases hg : s.showCamera = true ∧ s.streamRef = none
      · rw [step, if_pos hg]
        cases r <;> intro hne <;> first
          | exact hg.1
          | exact absurd (hg.2) hne
      · rw [step, if_neg hg]
        exact h
  | captureClick ctx =>
      by_cases hc : s.showCamera
      · rw [step, if_pos hc]
        unfold capturePhoto
        split_ifs
        · intro _
          exact hc
        · intro _
          exact hc
        · intro hne
          rw [stopCamera_streamRef] at hne
          exact absurd rfl hne
      · rw [step, if_neg hc]
        exact h
  | cancelClick =>
      by_cases hc : s.showCamera
      · intro hne
        rw [step, if_pos hc, stopCamera_streamRef] at hne
        exact absurd rfl hne
      · rw [step, if_neg hc]
        exact h
  | unmount =>
      intro hne
      rw [step, unmountCleanup_streamRef] at hne
      exact absurd rfl hne

/-- The camera invariant holds in every reachable state. -/
theorem camInv_run (env : ClientEnv) (evs : List CamEvent) :
    CamInv (run env evs) := by
  suffices hgen : ∀ s, CamInv s → CamInv (evs.foldl (step env) s) from
    hgen initState camInv_init
  induction evs with
  | nil => exact fun s hs => hs
  | cons e rest ih => exact fun s hs => ih _ (camInv_step env s e hs)

/-- C8: along every event trace from the initial state, at most one camera
device handle is referenced at a time; a new device stream is acquired
only in states holding no handle; and after each terminal transition —
unmount, user cancel, a failed open that actually ran, or a successful
capture — the device handle is null. -/
theorem camera_resource_invariant (env : ClientEnv) (evs : List CamEvent) :
    (run env evs).streamRef.toList.length ≤ 1 ∧
    (∀ ev, (step env (run env evs) ev).nextStreamId ≠ (run env evs).nextStreamId →
      (run env evs).streamRef = none) ∧
    (step env (run env evs) .unmount).streamRef = none ∧
    (step env (run env evs) .cancelClick).streamRef = none ∧
    (∀ r, (run env evs).showCamera = true → (run env evs).streamRef = none →
      r ≠ .success →
      (step env (run env evs) (.effectOpen r)).streamRef = none) ∧
    ((run env evs).streamRef ≠ none →
      (step env (run env evs) (.captureClick true)).streamRef = none) := by
  set s := run env evs with hs
  refine ⟨?_, ?_, ?_, ?_, ?_, ?_⟩
  · cases h : s.streamRef <;> simp [h]
  · intro ev hne
    cases ev with
    | cameraButton =>
        exfalso
        apply hne
        rw [step]
        split_ifs
        · rw [stopCamera_nextStreamId]
        · rfl
    | effectOpen r =>
        by_cases hg : s.showCamera = true ∧ s.streamRef = none
        · exact hg.2
        · exfalso
          apply hne
          rw [step, if_neg hg]
    | captureClick ctx =>
        exfalso
        apply hne
        rw [step]
        split_ifs
        · rw [capturePhoto_nextStreamId]
        · rfl
    | cancelClick =>
        exfalso
        apply hne
        rw [step]
        split_ifs
        · rw [stopCamera_nextStreamId]
        · rfl
    | unmount =>
        exfalso
        apply hne
        rw [step, unmountCleanup_nextStreamId]
  · rw [step, unmountCleanup_streamRef]
  · by_cases hc : s.showCamera
    · rw [step, if_pos hc, stopCamera_streamRef]
    · rw [step, if_neg hc]
      by_cases hr : s.streamRef = none
      · exact hr
      · exact absurd (camInv_run env evs hr) hc
  · intro r hcam href hnr
    rw [step, if_pos ⟨hcam, href⟩]
    cases r with
    | throwBeforeAcquire name msg => exact href
    | throwAfterAcquire name msg => exact href
    | throwAfterAttach name msg => exact href
    | success => exact absurd rfl hnr
  · intro href
    have hcam : s.showCamera = true := camInv_run env evs href
    rw [step, if_pos hcam]
    unfold capturePhoto
    rw [if_neg (by simp [hcam, href]), if_neg (by simp), stopCamera_streamRef]

/-- Witness for `camera_resource_invariant` on a trace that opens the
camera successfully. -/
theorem camera_resource_invariant_witness :
    (run testEnv [.cameraButton, .effectOpen .success]).streamRef.toList.length ≤ 1 ∧
    (step testEnv (run testEnv [.cameraButton, .effectOpen .success])
        .cancelClick).streamRef = none ∧
    (step testEnv (run testEnv [.cameraButton, .effectOpen .success])
        (.captureClick true)).streamRef = none :=
  ⟨(camera_resource_invariant testEnv [.cameraButton, .effectOpen .success]).1,
   (camera_resource_invariant testEnv [.cameraButton, .effectOpen .success]).2.2.2.1,
   (camera_resource_invariant testEnv
      [.cameraButton, .effectOpen .success]).2.2.2.2.2 (by decide)⟩

end IsItVegan
